import Mathlib

/-
  Verification of the rhino3dm project-file setup orchestrator
  (script/setup.py) against its natural-language specification.

  The script is embedded shallowly: filesystem state, the process-wide
  working directory and the emitted status lines / subprocess launches are
  threaded explicitly through every function as a `St` value, and each
  Python function becomes a Lean function `... → St → Res α` where
  `Res α` distinguishes a normal return from a process-terminating event
  (`sys.exit` or an uncaught Python exception).

  External collaborators (the CMake/msbuild/MethodGen executables, the
  bootstrap toolchain resolver, the emcmake launcher) are opaque per the
  spec; their observable behaviour is supplied as an `Env` parameter:
  for each command string, the stdout/stderr observations its run yields
  and its effect on the filesystem.

  Out-of-scope formatting details (terminal colours, the xcode_logging
  text variants, verbose echoing of subprocess stdout) are abstracted:
  each printed status line is recorded as a trace event carrying the
  message text of the non-xcode branch.

  Paths are modelled structurally (absolute flag + component list); the
  Windows backslash-to-double-slash separator flips are identity under
  this rendering.  The filesystem roots derived from `__file__` in the source
  are fixed here under a repository root named "repo".
-/

namespace SetupPy

/-- A filesystem path: absolute flag plus components.
`os.path.join` discards the left operand when the right is absolute;
`os.path.abspath` resolves a relative path against the working directory.
The Python empty string is the relative path with no components. -/
structure Path where
  absolute : Bool
  comps : List String
deriving DecidableEq

def Path.join (p q : Path) : Path :=
  if q.absolute then q else ⟨p.absolute, p.comps ++ q.comps⟩

def Path.abspath (cwd p : Path) : Path :=
  if p.absolute then p else ⟨true, cwd.comps ++ p.comps⟩

def Path.render (p : Path) : String :=
  (if p.absolute then "/" else "") ++ String.intercalate "/" p.comps

def Path.parent (p : Path) : Path :=
  ⟨p.absolute, p.comps.dropLast⟩

/-- Is `q` equal to or underneath `p` (for recursive deletion)? -/
def Path.isUnder (q p : Path) : Bool :=
  q.absolute == p.absolute && p.comps.isPrefixOf q.comps

def emptyPath : Path := ⟨false, []⟩

/-- The filesystem: which paths exist as regular files and as directories. -/
structure FS where
  files : List Path
  dirs : List Path
deriving DecidableEq

def FS.existsPath (fs : FS) (p : Path) : Bool :=
  fs.files.contains p || fs.dirs.contains p

def FS.isFile (fs : FS) (p : Path) : Bool :=
  fs.files.contains p

def FS.isDir (fs : FS) (p : Path) : Bool :=
  fs.dirs.contains p

/-- Models `os.remove` of a file (caller has checked it is a file). -/
def FS.removeFile (fs : FS) (p : Path) : FS :=
  { fs with files := fs.files.filter (fun q => q != p) }

/-- Models `shutil.rmtree`: remove a directory and everything under it. -/
def FS.rmtree (fs : FS) (p : Path) : FS :=
  { files := fs.files.filter (fun q => !(q.isUnder p)),
    dirs := fs.dirs.filter (fun q => !(q.isUnder p)) }

def FS.addFile (fs : FS) (p : Path) : FS :=
  { fs with files := fs.files ++ [p] }

/-- Models `os.mkdir`: fails (raises) if the path exists or the parent directory
is missing.  Only absolute paths are created (no claim exercises a
relative `mkdir`). -/
def FS.mkdir (fs : FS) (p : Path) : Option FS :=
  if fs.existsPath p then none
  else if !(p.absolute && fs.isDir p.parent) then none
  else some { fs with dirs := fs.dirs ++ [p] }

/-- Observable events of one orchestrator run, in order. -/
inductive Ev where
  | warn (msg : String)
  | err (msg : String)
  | okMsg (msg : String)
  | info (msg : String)
  | proc (cmd : String)
  | slept (secs : Nat)
deriving DecidableEq

/-- Why the whole process stopped early: `sys.exit(code)` or an uncaught
Python exception. -/
inductive Exit where
  | sysExit (code : Nat)
  | pyError (msg : String)
deriving DecidableEq

/-- Process-wide mutable state: the filesystem, the working directory and
the trace of emitted events. -/
structure St where
  fs : FS
  cwd : Path
  trace : List Ev
deriving DecidableEq

def St.evs (st : St) (e : Ev) : St :=
  { st with trace := st.trace ++ [e] }

/-- Outcome of running a piece of the script: a returned value with the
state after it, or early process termination. -/
inductive Res (α : Type) where
  | ok (a : α) (st : St)
  | exit (e : Exit) (st : St)
deriving DecidableEq

/-- Sequencing: early termination propagates. -/
def Res.and {α β : Type} (r : Res α) (k : α → St → Res β) : Res β :=
  match r with
  | .ok a st => k a st
  | .exit e st => .exit e st

def Res.state {α : Type} : Res α → St
  | .ok _ st => st
  | .exit _ st => st

def Res.val? {α : Type} : Res α → Option α
  | .ok a _ => some a
  | .exit _ _ => none

def Res.isSysExit1 {α : Type} : Res α → Bool
  | .exit (.sysExit 1) _ => true
  | _ => false

/-- Does the run return a `some` value (i.e. a non-`None` Python value)? -/
def Res.retSome {α : Type} : Res (Option α) → Bool
  | .ok (some _) _ => true
  | _ => false

def Res.traceHas {α : Type} (r : Res α) (e : Ev) : Bool :=
  (Res.state r).trace.contains e

/-- One iteration of the read loop of `run_command`, as observed by the script:
what `process.stdout.readline()` returned, whether `process.poll()`
reported termination, and what `process.stderr.readline()` would return
if consulted. -/
structure Step where
  terminated : Bool
  stdoutLine : String
  stderrLine : String

/-- The opaque behaviour of one external command: the loop observations
its run produces, its final exit status, and its effect on the
filesystem. -/
structure CmdSpec where
  steps : List Step
  exitCode : Int
  effect : FS → FS

/-- The ambient environment of one invocation of the script: host platform
(`sys.platform`), the `--overwrite` flag, the behaviour of every external
command, the behaviour of the direct `Popen` used for the JS generator,
and the values the bootstrap collaborator resolves. -/
structure Env where
  host : String
  overwrite : Bool
  run : String → CmdSpec
  jsOSError : Bool
  jsOut : String
  jsErr : String
  ndkPath : Path
  msbuildPath : String

/-- The `run_command` read loop (setup.py lines 91-114): per iteration,
read a stdout line, break if `poll()` shows termination, echo a non-empty
line, otherwise (when errors are not suppressed) read one stderr line and
treat a non-empty one as fatal.  Returns the fatal stderr line, if the
loop hits one before observing termination. -/
def loopFatal (suppress : Bool) : List Step → Option String
  | [] => none
  | s :: rest =>
    if s.terminated then none
    else if s.stdoutLine != "" then loopFatal suppress rest
    else if suppress then loopFatal suppress rest
    else if s.stderrLine != "" then some s.stderrLine
    else loopFatal suppress rest

/-- Models `run_command(command, suppress_errors)`: launch the command (recorded
as a `proc` event; its filesystem effect happens during the run), stream
its output, and either `sys.exit(1)` after reporting the first fatal
stderr line, or return the exit status of the process. -/
def run_command (env : Env) (command : String) (suppress : Bool) (st : St) : Res Int :=
  let spec := env.run command
  let st1 : St := { st with trace := st.trace ++ [.proc command], fs := spec.effect st.fs }
  match loopFatal suppress spec.steps with
  | some e => .exit (.sysExit 1) (st1.evs (.err e))
  | none => .ok spec.exitCode st1

/-- Models `os.chdir`: set the working directory; raises if the target is not an
existing directory (in particular for the empty string). -/
def osChdir (p : Path) (st : St) : Res Unit :=
  if st.fs.isDir p then .ok () { st with cwd := p }
  else .exit (.pyError ("chdir: no such directory: " ++ p.render)) st

/-- Models `os.remove`: delete a file; raises if the path is not a regular file. -/
def osRemove (p : Path) (st : St) : Res Unit :=
  if st.fs.isFile p then .ok () { st with fs := st.fs.removeFile p }
  else .exit (.pyError ("remove: not a file: " ++ p.render)) st

/-- Bare `os.mkdir` (raises on failure), as used by `setup_handler` for
the build root. -/
def osMkdirRaise (p : Path) (st : St) : Res Unit :=
  match st.fs.mkdir p with
  | some fs2 => .ok () { st with fs := fs2 }
  | none => .exit (.pyError ("mkdir failed: " ++ p.render)) st

-- The path globals of setup.py (lines 31-34), with the repository root
-- called "repo": script_folder, src_folder, build_folder and the native
-- source folder.
def script_folder : Path := ⟨true, ["repo", "script"]⟩

def src_folder : Path := ⟨true, ["repo", "src"]⟩

def build_folder : Path := ⟨true, ["repo", "src", "build"]⟩

def librhino3dm_native_folder : Path := ⟨true, ["repo", "src", "librhino3dm_native"]⟩

def valid_platform_args : List String := ["js", "ios", "macos", "android", "windows"]

def platform_full_name : String → String
  | "js" => "JavaScript"
  | "ios" => "iOS"
  | "macos" => "macOS"
  | "android" => "Android"
  | "windows" => "Windows"
  | _ => ""

def isWinHost (h : String) : Bool := h == "win32" || h == "win64"

def methodgen_csproj : Path := ⟨true, ["repo", "src", "methodgen", "methodgen.csproj"]⟩

def methodgen_exe : Path := ⟨true, ["repo", "src", "MethodGen.exe"]⟩

def dotnet_folder : Path := ⟨true, ["repo", "src", "dotnet"]⟩

/-- Models `item_to_check` of `run_methodgen`: the generated source file at the
managed-source root. -/
def autonative_cs : Path := ⟨true, ["repo", "src", "dotnet", "AutoNativeMethods.cs"]⟩

def bootstrap_pyc : Path := ⟨true, ["repo", "script", "bootstrap.pyc"]⟩

-- The generator / build-tool command strings, as the source concatenates
-- them (setup.py lines 179, 225, 257, 287-288, 307, 366-367, 402).
def build_methodgen_command (env : Env) : String :=
  (if isWinHost env.host then env.msbuildPath else "msbuild")
    ++ " " ++ methodgen_csproj.render ++ " /p:Configuration=Release"

def run_methodgen_command (env : Env) : String :=
  (if env.host == "darwin" then "mono " else "")
    ++ methodgen_exe.render ++ " " ++ librhino3dm_native_folder.render ++ " "
    ++ dotnet_folder.render ++ " ../lib/opennurbs rhino3dm"

def cmake_macos_command : String :=
  "cmake -G \"Xcode\" -DMACOS_BUILD=1 " ++ librhino3dm_native_folder.render

def cmake_ios_command : String :=
  "cmake -G \"Xcode\" -DCMAKE_TOOLCHAIN_FILE=../../src/ios.toolchain.cmake -DPLATFORM=OS64COMBINED "
    ++ "-DDEPLOYMENT_TARGET=9.3 " ++ librhino3dm_native_folder.render

def cmake_js_command : String :=
  "emcmake cmake -DCMAKE_CXX_FLAGS=\"-s MODULARIZE=1 -s \x27EXPORT_NAME=\\\"rhino3dm\\\"\x27\" "
    ++ src_folder.render

def android_toolchain (env : Env) : Path :=
  env.ndkPath.join ⟨false, ["build", "cmake", "android.toolchain.cmake"]⟩

def cmake_android_command (env : Env) (abi : String) : String :=
  "cmake -DCMAKE_TOOLCHAIN_FILE=" ++ (android_toolchain env).render
    ++ " -DANDROID_ABI=" ++ abi
    ++ " -DANDROID_PLATFORM=android-24 -DCMAKE_ANDROID_STL_TYPE=c++_shared "
    ++ librhino3dm_native_folder.render

def cmake_windows_command : String :=
  "cmake -G \"Visual Studio 15 2017\" " ++ librhino3dm_native_folder.render

/-- Models `check_or_create_path` (lines 129-136): create the directory if
missing; any exception from the creation is swallowed and the empty
string is returned instead of the path. -/
def check_or_create_path (target : Path) (st : St) : Res Path :=
  if !(st.fs.existsPath target) then
    match st.fs.mkdir target with
    | some fs2 => .ok target { st with fs := fs2 }
    | none => .ok emptyPath st
  else .ok target st

/-- Models `overwrite_check` (lines 139-153): nonexistent path → proceed;
existing path without `--overwrite` → warn and refuse; existing path with
`--overwrite` → delete the file, or recursively delete the directory and
sleep 2 seconds, then proceed. -/
def overwrite_check (env : Env) (item : Path) (st : St) : Res Bool :=
  if st.fs.existsPath item then
    if !env.overwrite then
      .ok false (st.evs (.warn ("A configuration already appears in " ++ item.render
        ++ ". Use --overwrite to replace.")))
    else
      let st1 := if st.fs.isFile item then { st with fs := st.fs.removeFile item } else st
      let st2 := if st1.fs.isDir item then
          { st1 with fs := st1.fs.rmtree item, trace := st1.trace ++ [.slept 2] }
        else st1
      .ok true st2
  else .ok true st

/-- Models `setup_did_succeed` (lines 156-162): the existence of the success artifact
is re-read from the filesystem and decides the reported outcome. -/
def setup_did_succeed (item : Path) (st : St) : Res Bool :=
  if st.fs.existsPath item then
    .ok true (st.evs (.okMsg ("successfully wrote: " ++ item.render)))
  else
    .ok false (st.evs (.err ("failed to configure and generate " ++ item.render)))

/-- Models `build_methodgen` (lines 165-190): run the msbuild of
methodgen.csproj, then report success iff `MethodGen.exe` now exists. -/
def build_methodgen (env : Env) (st : St) : Res Bool :=
  let st := st.evs (.info " Building MethodGen...")
  (run_command env (build_methodgen_command env) false st).and fun _ st =>
    if st.fs.existsPath methodgen_exe then
      .ok true (st.evs (.okMsg ("successfully built: " ++ methodgen_exe.render)))
    else
      .ok false (st.evs (.err ("failed to build " ++ methodgen_exe.render
        ++ " for macOS build")))

/-- Models `run_methodgen` (lines 193-233): refuse if `MethodGen.exe` is absent;
otherwise delete any stale `AutoNativeMethods.cs`, run the generator, and
check that the file now exists.  The Python function returns `False` on
its failure paths and falls off the end (returning `None`) on success,
hence the `Option Bool` result. -/
def run_methodgen (env : Env) (st : St) : Res (Option Bool) :=
  let st := st.evs (.info " Running MethodGen...")
  if !(st.fs.existsPath methodgen_exe) then
    .ok (some false) (st.evs (.err "MethodGen.exe not found."))
  else
    (if st.fs.existsPath autonative_cs then osRemove autonative_cs st
     else .ok () st).and fun _ st =>
    (run_command env (run_methodgen_command env) false st).and fun _ st =>
    if st.fs.existsPath autonative_cs then
      .ok none (st.evs (.okMsg ("successfully generated: " ++ autonative_cs.render)))
    else
      .ok (some false) (st.evs (.err ("failed to generate " ++ autonative_cs.render
        ++ " for macOS build")))

def macos_build_path : Path := ⟨true, ["repo", "src", "build", "macos"]⟩

def ios_build_path : Path := ⟨true, ["repo", "src", "build", "ios"]⟩

def js_build_path : Path := ⟨true, ["repo", "src", "build", "js"]⟩

def android_build_path : Path := ⟨true, ["repo", "src", "build", "android"]⟩

def windows_build_path : Path := ⟨true, ["repo", "src", "build", "windows"]⟩

/-- Models `item_to_check` of `setup_js`:
`os.path.abspath(os.path.join(target_path, "Makefile"))`. -/
def js_item (target_path cwd : Path) : Path :=
  Path.abspath cwd (target_path.join ⟨false, ["Makefile"]⟩)

def xcodeproj_item (target_path cwd : Path) : Path :=
  Path.abspath cwd (target_path.join ⟨false, ["librhino3dm_native.xcodeproj"]⟩)

def vcxproj_item (target_path cwd : Path) : Path :=
  Path.abspath cwd (target_path.join ⟨false, ["librhino3dm_native.vcxproj"]⟩)

def android_abi_item (abi_target_path cwd : Path) : Path :=
  Path.abspath cwd (abi_target_path.join ⟨false, ["Makefile"]⟩)

/-- Models `setup_macos` (lines 236-264). -/
def setup_macos (env : Env) (st : St) : Res Bool :=
  if !(env.host == "darwin") then
    .ok false (st.evs (.err "Generating project file for macOS requires that you run this script on macOS"))
  else
    (check_or_create_path macos_build_path st).and fun target_path st =>
    let item := xcodeproj_item target_path st.cwd
    (overwrite_check env item st).and fun proceed st =>
    if !proceed then .ok false st
    else
      (osChdir target_path st).and fun _ st =>
      let st := st.evs (.info "Generating xcodeproj files for macOS...")
      (run_command env cmake_macos_command false st).and fun _ st =>
      (build_methodgen env st).and fun _ st =>
      (run_methodgen env st).and fun _ st =>
      setup_did_succeed item st

/-- Models `setup_ios` (lines 267-295). -/
def setup_ios (env : Env) (st : St) : Res Bool :=
  if !(env.host == "darwin") then
    .ok false (st.evs (.err "Generating project file for iOS requires that you run this script on macOS"))
  else
    (check_or_create_path ios_build_path st).and fun target_path st =>
    let item := xcodeproj_item target_path st.cwd
    (overwrite_check env item st).and fun proceed st =>
    if !proceed then .ok false st
    else
      (osChdir target_path st).and fun _ st =>
      let st := st.evs (.info "Generating xcodeproj files for iOS...")
      (run_command env cmake_ios_command false st).and fun _ st =>
      (build_methodgen env st).and fun _ st =>
      (run_methodgen env st).and fun _ st =>
      setup_did_succeed item st

/-- Models `setup_js` (lines 298-331): the JS generator is launched with a bare
`Popen`/`communicate` rather than `run_command`; an `OSError` from the
launch (emcmake missing) is reported and fails the attempt, a non-empty
decoded stderr with empty stdout is reported as an error (without
terminating), and the Makefile existence check decides the outcome. -/
def setup_js (env : Env) (st : St) : Res Bool :=
  (check_or_create_path js_build_path st).and fun target_path st =>
  let item := js_item target_path st.cwd
  (overwrite_check env item st).and fun proceed st =>
  if !proceed then .ok false st
  else
    (osChdir target_path st).and fun _ st =>
    if env.jsOSError then
      .ok false (st.evs (.err "could not find emcmake command.  Run the bootstrap.py --check emscripten"))
    else
      let spec := env.run cmake_js_command
      let st : St := { st with trace := st.trace ++ [.proc cmake_js_command],
                               fs := spec.effect st.fs }
      let st := if env.jsOut != "" then st
        else if env.jsErr != "" then st.evs (.err env.jsErr) else st
      setup_did_succeed item st

def app_abis : List String := ["armeabi-v7a", "arm64-v8a", "x86_64", "x86"]

/-- The per-ABI loop of `setup_android` (lines 350-373).  The Boolean
result distinguishes the Python `return False` escape (overwrite_check
denied: `false`) from normal fall-through to the code after the loop
(`true`), which the `break` on a failed artifact check also reaches. -/
def setup_android_loop (env : Env) (target_path : Path) : List String → St → Res Bool
  | [], st => .ok true st
  | abi :: rest, st =>
    (check_or_create_path (target_path.join ⟨false, [abi]⟩) st).and fun abi_target st =>
    let item := android_abi_item abi_target st.cwd
    (overwrite_check env item st).and fun proceed st =>
    if !proceed then .ok false st
    else
      (osChdir abi_target st).and fun _ st =>
      let st := st.evs (.info ("Generating Makefile Android (" ++ abi ++ ")..."))
      (run_command env (cmake_android_command env abi) false st).and fun _ st =>
      let st := st.evs (.slept 2)
      (setup_did_succeed item st).and fun success st =>
      if !success then .ok true st
      else setup_android_loop env target_path rest st

/-- Models `setup_android` (lines 334-377): resolve the NDK toolchain, create the
android build folder, run the per-ABI loop, then (unless an
overwrite_check denial returned early) build and run MethodGen.  The
Python function has no `return` on its main path, so it returns `None`
(here `none`); the overwrite_check escape returns `False`. -/
def setup_android (env : Env) (st : St) : Res (Option Bool) :=
  (check_or_create_path android_build_path st).and fun target_path st =>
  (setup_android_loop env target_path app_abis st).and fun completed st =>
  if !completed then .ok (some false) st
  else
    (build_methodgen env st).and fun _ st =>
    (run_methodgen env st).and fun _ st =>
    .ok none st

/-- Models `setup_windows` (lines 380-409). -/
def setup_windows (env : Env) (st : St) : Res Bool :=
  if !(isWinHost env.host) then
    .ok false (st.evs (.err "Generating project file for Windows requires that you run this script on Windows"))
  else
    (check_or_create_path windows_build_path st).and fun target_path st =>
    let item := vcxproj_item target_path st.cwd
    (overwrite_check env item st).and fun proceed st =>
    if !proceed then .ok false st
    else
      (osChdir target_path st).and fun _ st =>
      let st := st.evs (.info "Generating vcxproj files for Windows native build")
      (run_command env cmake_windows_command false st).and fun _ st =>
      (build_methodgen env st).and fun _ st =>
      (run_methodgen env st).and fun _ st =>
      setup_did_succeed item st

/-- The reflective call `getattr(sys.modules[__name__], "setup_" + target)()`
(lines 419, 422): the value the setup function of each platform returns, as a
Python value (`none` is the Python `None`, from `setup_android`).  An
unknown name raises `AttributeError`. -/
def run_platform_setup (env : Env) (target : String) (st : St) : Res (Option Bool) :=
  match target with
  | "js" => (setup_js env st).and fun b st => .ok (some b) st
  | "ios" => (setup_ios env st).and fun b st => .ok (some b) st
  | "macos" => (setup_macos env st).and fun b st => .ok (some b) st
  | "android" => setup_android env st
  | "windows" => (setup_windows env st).and fun b st => .ok (some b) st
  | other => .exit (.pyError ("AttributeError: setup_" ++ other)) st

/-- The "all" loop of `setup_handler` (lines 416-419): preamble, then the
reflective setup call, its return value discarded. -/
def setup_handler_loop (env : Env) : List String → St → Res Unit
  | [], st => .ok () st
  | t :: rest, st =>
    let st := st.evs (.info ("Setting up " ++ platform_full_name t ++ "..."))
    (run_platform_setup env t st).and fun _ st => setup_handler_loop env rest st

/-- Models `setup_handler` (lines 412-422): ensure the build root exists, then
run either every platform in declaration order or the one named platform.
The return value of every setup call is discarded and the Python function
falls off the end, returning `None`; it is typed here at the spec
dispatcher-contract type (an optional mapping platform → outcome) to make
that observable: the result value is always `none`. -/
def setup_handler (env : Env) (platform_target : String) (st : St) :
    Res (Option (List (String × Option Bool))) :=
  (if !(st.fs.existsPath build_folder) then osMkdirRaise build_folder st
   else .ok () st).and fun _ st =>
  if platform_target == "all" then
    (setup_handler_loop env valid_platform_args st).and fun _ st => .ok none st
  else
    let st := st.evs (.info ("Setting up " ++ platform_full_name platform_target ++ "..."))
    (run_platform_setup env platform_target st).and fun _ st => .ok none st

/-- Follows the wording of the spec (§4.5 Dispatcher contract), for
comparison with the `setup_handler` of the source: invoke every platform
exactly once in declaration order, continuing past per-platform failures,
and return one `(platform_id, outcome)` entry per platform. -/
def dispatcher_spec_loop (env : Env) : List String → St → Res (List (String × Option Bool))
  | [], st => .ok [] st
  | t :: rest, st =>
    let st := st.evs (.info ("Setting up " ++ platform_full_name t ++ "..."))
    (run_platform_setup env t st).and fun outcome st =>
    (dispatcher_spec_loop env rest st).and fun m st => .ok ((t, outcome) :: m) st

/-- Follows the wording of the spec (§4.5): the Dispatcher for "all", returning
the mapping of platform ids to outcomes. -/
def dispatcher_spec (env : Env) (st : St) : Res (List (String × Option Bool)) :=
  (if !(st.fs.existsPath build_folder) then osMkdirRaise build_folder st
   else .ok () st).and fun _ st =>
  dispatcher_spec_loop env valid_platform_args st

def invalid_platform_msg (p : String) : String :=
  p ++ " is not a valid platform argument. valid tool arguments: all, "
    ++ String.intercalate ", " valid_platform_args ++ "."

/-- The platform loop of `main` (lines 474-479): each requested name is
validated immediately before its dispatch; an unrecognized name reports
an error and exits with status 1. -/
def main_platform_loop (env : Env) : List String → St → Res Unit
  | [], st => .ok () st
  | p :: rest, st =>
    if p != "all" && !(valid_platform_args.contains p) then
      .exit (.sysExit 1) (st.evs (.err (invalid_platform_msg p)))
    else
      (setup_handler env p st).and fun _ st => main_platform_loop env rest st

/-- Models `delete_cache_file` (lines 425-429). -/
def delete_cache_file (st : St) : Res Unit :=
  if st.fs.existsPath bootstrap_pyc then osRemove bootstrap_pyc st
  else .ok () st

/-- Models `main` (lines 433-481), from the point where the parsed arguments are
available: change into the script folder, run the platform loop over the
`--platform` arguments (if any), then delete the bootstrap cache file.
Argument parsing itself and the help-and-exit path for an empty argv are
out of scope (CLI parser is an external collaborator per the spec). -/
def main (env : Env) (platformArgs : Option (List String)) (st : St) : Res Unit :=
  (osChdir script_folder st).and fun _ st =>
  (match platformArgs with
   | some l => main_platform_loop env l st
   | none => .ok () st).and fun _ st =>
  delete_cache_file st

-- ------------------------------------------------------------------
-- Concrete scenario inputs used to settle the claims.
-- ------------------------------------------------------------------

/-- A run-loop observation list for a command that terminates silently. -/
def termStep : Step := ⟨true, "", ""⟩

def silentSpec : CmdSpec := ⟨[termStep], 0, id⟩

/-- Baseline environment: every external command terminates silently and
touches nothing; no `--overwrite`; emcmake launches fine. -/
def baseEnv (host : String) : Env :=
  { host := host, overwrite := false,
    run := fun _ => silentSpec,
    jsOSError := false, jsOut := "", jsErr := "",
    ndkPath := ⟨true, ["opt", "ndk"]⟩, msbuildPath := "msbuild" }

/-- Baseline filesystem: the repository tree exists, the build root
exists, nothing has been generated yet. -/
def fs0 : FS :=
  { files := [],
    dirs := [⟨true, ["repo"]⟩, script_folder, src_folder, build_folder,
             librhino3dm_native_folder] }

def st0 : St := { fs := fs0, cwd := script_folder, trace := [] }

def js_makefile : Path := ⟨true, ["repo", "src", "build", "js", "Makefile"]⟩

def macos_xcodeproj : Path := ⟨true, ["repo", "src", "build", "macos", "librhino3dm_native.xcodeproj"]⟩

def ios_xcodeproj : Path := ⟨true, ["repo", "src", "build", "ios", "librhino3dm_native.xcodeproj"]⟩

def windows_vcxproj : Path := ⟨true, ["repo", "src", "build", "windows", "librhino3dm_native.vcxproj"]⟩

def abiMakefile (abi : String) : Path := ⟨true, ["repo", "src", "build", "android", abi, "Makefile"]⟩

def abiDir (abi : String) : Path := ⟨true, ["repo", "src", "build", "android", abi]⟩

/-- Filesystem effect of a tool run that writes the primary artifact of
every platform, the MethodGen executable and the generated source file. -/
def createAllFx (fs : FS) : FS :=
  (((((fs.addFile js_makefile).addFile macos_xcodeproj).addFile ios_xcodeproj).addFile
       windows_vcxproj).addFile methodgen_exe).addFile autonative_cs

/-- Environment whose external commands terminate silently and create
every artifact; the android generator creates the Makefile of the ABI
named in its command line. -/
def envCreate (host : String) : Env :=
  let base := baseEnv host
  { base with run := fun c =>
      { steps := [termStep], exitCode := 0,
        effect := fun fs =>
          match app_abis.find? (fun abi => c == cmake_android_command base abi) with
          | some abi => fs.addFile (abiMakefile abi)
          | none => createAllFx fs } }

/-- Environment family for the exit-code-independence theorem: every
command returns exit status `rc`; it creates every artifact when `b` is
true and nothing when `b` is false. -/
def envRet (host : String) (rc : Int) (b : Bool) : Env :=
  { baseEnv host with run := fun _ =>
      { steps := [termStep], exitCode := rc, effect := if b then createAllFx else id } }

/-- The android generator invocations recorded in a trace. -/
def androidProcEvents (env : Env) (tr : List Ev) : List Ev :=
  tr.filter (fun e => app_abis.any (fun abi => e == .proc (cmake_android_command env abi)))

/-- Is this event the "Setting up <platform>..." preamble of one of the
enumerated platforms? -/
def isPreambleEv : Ev → Bool
  | .info m => (valid_platform_args.map (fun t => "Setting up " ++ platform_full_name t ++ "...")).contains m
  | _ => false

/-- C1 gate-denial scenario: the arm64-v8a Makefile already exists and
`--overwrite` is off, so the overwrite_check of the second ABI denies. -/
def stC1gate : St :=
  { fs := { fs0 with files := [abiMakefile "arm64-v8a"] }, cwd := script_folder, trace := [] }

/-- C2 scenario: the iOS generator emits a stderr line while its stdout
is silent; every other command is silent. -/
def envC2 : Env :=
  { baseEnv "darwin" with run := fun c =>
      if c == cmake_ios_command then
        { steps := [⟨false, "", "boom"⟩], exitCode := 1, effect := id }
      else silentSpec }

/-- C4 caller scenario: the JS Makefile already exists, `--overwrite` off. -/
def stC4 : St :=
  { fs := { files := [js_makefile], dirs := fs0.dirs ++ [js_build_path] },
    cwd := script_folder, trace := [] }

/-- C10 scenario: the build root is missing, so creating `build/js`
fails and `check_or_create_path` yields the empty string; a `Makefile`
sits in the current working directory (the script folder). -/
def stC10 : St :=
  { fs := { files := [⟨true, ["repo", "script", "Makefile"]⟩],
            dirs := [⟨true, ["repo"]⟩, script_folder, src_folder] },
    cwd := script_folder, trace := [] }

-- ------------------------------------------------------------------
-- Theorems settling the claims.
-- ------------------------------------------------------------------

set_option maxRecDepth 1000000

/-- Filtering away every occurrence of `p` leaves a list not containing
`p`. -/
theorem contains_filter_ne (l : List Path) (p : Path) :
    (l.filter (fun q => q != p)).contains p = false := by
  simp

/-- Counterexample to claim C1 as stated: with every external command
silent and effect-free, the first ABI variant fails its artifact
verification while three variants remain, yet only ONE android generator
invocation ever happens — the loop breaks instead of continuing to the
next variant. -/
theorem claimC1_cex :
    androidProcEvents (baseEnv "linux") (Res.state (setup_android (baseEnv "linux") st0)).trace =
      [.proc (cmake_android_command (baseEnv "linux") "armeabi-v7a")]
  ∧ (Res.state (setup_android (baseEnv "linux") st0)).fs.existsPath (abiMakefile "armeabi-v7a") = false
  ∧ (setup_android (baseEnv "linux") st0).traceHas
      (.proc (cmake_android_command (baseEnv "linux") "arm64-v8a")) = false := by
  decide

/-- Claim C1 (amended): `setup_android` repeats the generator step once
per ABI variant (armeabi-v7a, arm64-v8a, x86_64, x86), each in its own
subdirectory, when the artifact verification of every variant succeeds; a
variant whose overwrite_check denies access aborts the whole platform
attempt (returning failure, without reaching the MethodGen stage); and a
variant whose artifact verification fails stops the iteration over the
remaining variants (the loop breaks) while the MethodGen stage is still
reached. -/
theorem claimC1 :
    (androidProcEvents (envCreate "linux") (Res.state (setup_android (envCreate "linux") st0)).trace =
        [.proc (cmake_android_command (envCreate "linux") "armeabi-v7a"),
         .proc (cmake_android_command (envCreate "linux") "arm64-v8a"),
         .proc (cmake_android_command (envCreate "linux") "x86_64"),
         .proc (cmake_android_command (envCreate "linux") "x86")]
      ∧ (Res.state (setup_android (envCreate "linux") st0)).fs.isDir (abiDir "armeabi-v7a") = true
      ∧ (Res.state (setup_android (envCreate "linux") st0)).fs.isDir (abiDir "arm64-v8a") = true
      ∧ (Res.state (setup_android (envCreate "linux") st0)).fs.isDir (abiDir "x86_64") = true
      ∧ (Res.state (setup_android (envCreate "linux") st0)).fs.isDir (abiDir "x86") = true)
  ∧ ((setup_android (envCreate "linux") stC1gate).val? = some (some false)
      ∧ androidProcEvents (envCreate "linux") (Res.state (setup_android (envCreate "linux") stC1gate)).trace =
          [.proc (cmake_android_command (envCreate "linux") "armeabi-v7a")]
      ∧ (setup_android (envCreate "linux") stC1gate).traceHas
          (.proc (build_methodgen_command (envCreate "linux"))) = false)
  ∧ (androidProcEvents (baseEnv "linux") (Res.state (setup_android (baseEnv "linux") st0)).trace =
        [.proc (cmake_android_command (baseEnv "linux") "armeabi-v7a")]
      ∧ (setup_android (baseEnv "linux") st0).traceHas
          (.proc (build_methodgen_command (baseEnv "linux"))) = true) := by
  decide

/-- Claim C2: when `run_command` runs without stderr suppression and its
read loop observes an empty stdout line with a non-empty stderr line
available (process still running), the first such stderr line is reported
as an error and the whole process exits with status 1; consequently,
under "all", once the generator of one platform does this no later platform is
attempted (here: the iOS generator kills the run before macOS, Android or
Windows are even announced). -/
theorem claimC2 :
    (∀ (env : Env) (cmd : String) (st : St) (e : String),
        loopFatal false (env.run cmd).steps = some e →
        run_command env cmd false st =
          .exit (.sysExit 1)
            { st with fs := (env.run cmd).effect st.fs,
                      trace := st.trace ++ [.proc cmd, .err e] })
  ∧ (setup_handler envC2 "all" st0).isSysExit1 = true
  ∧ (setup_handler envC2 "all" st0).traceHas (.err "boom") = true
  ∧ (setup_handler envC2 "all" st0).traceHas (.info "Setting up iOS...") = true
  ∧ (setup_handler envC2 "all" st0).traceHas (.info "Setting up macOS...") = false
  ∧ (setup_handler envC2 "all" st0).traceHas (.info "Setting up Android...") = false
  ∧ (setup_handler envC2 "all" st0).traceHas (.info "Setting up Windows...") = false := by
  refine ⟨fun env cmd st e h => ?_, ?_, ?_, ?_, ?_, ?_, ?_⟩
  · simp [run_command, h, St.evs]
  all_goals decide

/-- Witness for C2: the iOS generator of `envC2` emits "boom" on stderr
while stdout stays empty, and `run_command` exits the process with
status 1 after reporting it. -/
theorem claimC2_witness :
    run_command envC2 cmake_ios_command false st0 =
      .exit (.sysExit 1)
        { st0 with fs := (envC2.run cmake_ios_command).effect st0.fs,
                   trace := st0.trace ++ [.proc cmake_ios_command, .err "boom"] } :=
  claimC2.1 envC2 cmake_ios_command st0 "boom" (by decide)

/-- Counterexample to claim C3 as stated: `setup_android` returns the
Python value `None` — not a success value — even on a run in which every
Makefile of every ABI variant was generated, verified to exist and confirmed
with an ok message. -/
theorem claimC3_cex :
    (setup_android (envCreate "linux") st0).val? = some none
  ∧ (Res.state (setup_android (envCreate "linux") st0)).fs.existsPath (abiMakefile "x86") = true
  ∧ (setup_android (envCreate "linux") st0).traceHas
      (.okMsg ("successfully wrote: " ++ (abiMakefile "x86").render)) = true := by
  decide

set_option maxHeartbeats 4000000 in
/-- Claim C3 (amended): for the js, ios, macos and windows setups the
returned success/failure equals the final filesystem re-check of the
success artifact of the platform, whatever exit status (`rc`) the external
commands report (`b` says whether the tools actually wrote the
artifacts); `setup_android`, however, always returns `None` rather than
an existence-derived Boolean. -/
theorem claimC3 (rc : Int) (b : Bool) :
    (setup_macos (envRet "darwin" rc b) st0).val? = some b
  ∧ (setup_ios (envRet "darwin" rc b) st0).val? = some b
  ∧ (setup_js (envRet "linux" rc b) st0).val? = some b
  ∧ (setup_windows (envRet "win32" rc b) st0).val? = some b
  ∧ (setup_android (envRet "linux" rc b) st0).val? = some none := by
  cases b <;> exact ⟨rfl, rfl, rfl, rfl, rfl⟩

/-- Witness for C3: concrete instance at exit status 7 with artifacts
written. -/
theorem claimC3_witness :
    (setup_macos (envRet "darwin" 7 true) st0).val? = some true
  ∧ (setup_ios (envRet "darwin" 7 true) st0).val? = some true
  ∧ (setup_js (envRet "linux" 7 true) st0).val? = some true
  ∧ (setup_windows (envRet "win32" 7 true) st0).val? = some true
  ∧ (setup_android (envRet "linux" 7 true) st0).val? = some none :=
  claimC3 7 true

/-- Claim C4: `overwrite_check` on a nonexistent path proceeds; on an
existing path without `--overwrite` it warns, refuses and leaves the
state untouched (and a caller such as `setup_js` then returns failure
with no subprocess launched); on an existing file with `--overwrite` it
deletes the file and proceeds; on an existing directory with
`--overwrite` it recursively deletes the directory, sleeps 2 seconds and
proceeds. -/
theorem claimC4 (env : Env) (item : Path) (st : St) :
    (st.fs.existsPath item = false → overwrite_check env item st = .ok true st)
  ∧ (st.fs.existsPath item = true → env.overwrite = false →
       overwrite_check env item st =
         .ok false (st.evs (.warn ("A configuration already appears in " ++ item.render
           ++ ". Use --overwrite to replace."))))
  ∧ (st.fs.existsPath item = true → env.overwrite = true → st.fs.isFile item = true →
       st.fs.isDir item = false →
       overwrite_check env item st = .ok true { st with fs := st.fs.removeFile item })
  ∧ (st.fs.existsPath item = true → env.overwrite = true → st.fs.isFile item = false →
       st.fs.isDir item = true →
       overwrite_check env item st =
         .ok true { st with fs := st.fs.rmtree item, trace := st.trace ++ [.slept 2] })
  ∧ setup_js (baseEnv "linux") stC4 =
      .ok false (stC4.evs (.warn "A configuration already appears in /repo/src/build/js/Makefile. Use --overwrite to replace.")) := by
  refine ⟨fun h => ?_, fun h1 h2 => ?_, fun h1 h2 h3 h4 => ?_, fun h1 h2 h3 h4 => ?_, ?_⟩
  · simp [overwrite_check, h]
  · simp [overwrite_check, h1, h2]
  · have h4b : (st.fs.removeFile item).isDir item = false := h4
    simp [overwrite_check, h1, h2, h3, h4b]
  · simp [overwrite_check, h1, h2, h3, h4]
  · decide

/-- Witness for C4: with `--overwrite` on and the macOS xcodeproj present
as a directory, `overwrite_check` recursively deletes it, sleeps 2
seconds and proceeds. -/
theorem claimC4_witness :
    overwrite_check { baseEnv "linux" with overwrite := true } macos_xcodeproj
        { fs := { files := [], dirs := [macos_xcodeproj] }, cwd := script_folder, trace := [] } =
      .ok true
        { fs := FS.rmtree { files := [], dirs := [macos_xcodeproj] } macos_xcodeproj,
          cwd := script_folder,
          trace := [.slept 2] } :=
  (claimC4 { baseEnv "linux" with overwrite := true } macos_xcodeproj
      { fs := { files := [], dirs := [macos_xcodeproj] }, cwd := script_folder, trace := [] }).2.2.2.1
    (by decide) (by decide) (by decide) (by decide)

/-- Counterexample to claim C5 as stated: dispatching "all" does not
return a mapping of outcomes — `setup_handler` discards every setup
return value of every setup call and itself returns `None` (here on a
run where several platforms fail their host precondition and every
platform is nevertheless attempted). -/
theorem claimC5_cex :
    (setup_handler (baseEnv "linux") "all" st0).retSome = false
  ∧ (setup_handler (baseEnv "linux") "all" st0).val? = some none := by
  decide

/-- Claim C5 (amended): dispatching "all" invokes the setup of every
platform in the enumerated set exactly once, in the fixed declaration
order (js, ios, macos, android, windows), continuing past per-platform
failures (including host-precondition failures); but the source
`setup_handler` discards the per-platform outcomes and returns `None`
rather than a mapping — the spec-faithful dispatcher (`dispatcher_spec`)
run on the same input is what yields the 5-entry outcome map. -/
theorem claimC5 :
    (Res.state (setup_handler (baseEnv "linux") "all" st0)).trace.filter isPreambleEv =
      [.info "Setting up JavaScript...", .info "Setting up iOS...",
       .info "Setting up macOS...", .info "Setting up Android...",
       .info "Setting up Windows..."]
  ∧ (setup_handler (baseEnv "linux") "all" st0).val? = some none
  ∧ (dispatcher_spec (baseEnv "linux") st0).val? =
      some [("js", some false), ("ios", some false), ("macos", some false),
            ("android", none), ("windows", some false)] := by
  decide

/-- Counterexample to claim C6 as stated: with the requested platform
list ["js", "bogus"], the program does terminate with exit status 1 on
the unrecognized name, but only after the filesystem and process side
effects of the earlier valid name — the JS generator subprocess has been
invoked and the build/js directory created. -/
theorem claimC6_cex :
    (main (baseEnv "linux") (some ["js", "bogus"]) st0).isSysExit1 = true
  ∧ (main (baseEnv "linux") (some ["js", "bogus"]) st0).traceHas (.proc cmake_js_command) = true
  ∧ (Res.state (main (baseEnv "linux") (some ["js", "bogus"]) st0)).fs.isDir js_build_path = true := by
  decide

/-- Claim C6 (amended): each requested platform name is validated
immediately before its own dispatch, so when the unrecognized name is
reached the program reports an error and terminates with exit status 1
before any side effect of THAT name — in particular a list headed by an
unrecognized name causes termination with no directory created and no
subprocess invoked at all; but platform names earlier in the list are
fully processed (with all their side effects) before a later
unrecognized name is detected. -/
theorem claimC6 :
    (∀ (env : Env) (p : String) (rest : List String) (st : St),
        (p == "all") = false → valid_platform_args.contains p = false →
        main_platform_loop env (p :: rest) st =
          .exit (.sysExit 1) (st.evs (.err (invalid_platform_msg p))))
  ∧ main (baseEnv "linux") (some ["bogus", "js"]) st0 =
      .exit (.sysExit 1) (st0.evs (.err (invalid_platform_msg "bogus"))) := by
  refine ⟨fun env p rest st h1 h2 => ?_, ?_⟩
  · have h2m : p ∉ valid_platform_args := by simpa using h2
    have hc : (p != "all" && !(valid_platform_args.contains p)) = true := by
      simp [bne, h1, h2m]
    simp only [main_platform_loop]
    rw [hc]
    simp
  · decide

/-- Witness for C6: the unrecognized name "bogus" at the head of the list
terminates the loop with status 1 and only the error report in the
trace. -/
theorem claimC6_witness :
    main_platform_loop (baseEnv "linux") ["bogus"] st0 =
      .exit (.sysExit 1) (st0.evs (.err (invalid_platform_msg "bogus"))) :=
  claimC6.1 (baseEnv "linux") "bogus" [] st0 (by decide) (by decide)

/-- Claim C7: `run_methodgen` re-checks on disk that `MethodGen.exe`
exists before doing anything else, so when the build_methodgen artifact
verification failed (it returned `False`, which happens exactly when the
executable is absent after the msbuild run), the subsequent
`run_methodgen` reports the missing executable and returns without
launching any code-generation subprocess. -/
theorem claimC7 :
    (∀ (env : Env) (st : St), st.fs.existsPath methodgen_exe = false →
        run_methodgen env st =
          .ok (some false)
            ((st.evs (.info " Running MethodGen...")).evs (.err "MethodGen.exe not found.")))
  ∧ (∀ (env : Env) (st st2 : St), build_methodgen env st = .ok false st2 →
        st2.fs.existsPath methodgen_exe = false) := by
  constructor
  · intro env st h
    simp [run_methodgen, St.evs, h]
  · intro env st st2 h
    simp only [build_methodgen, run_command, Res.and] at h
    cases hl : loopFatal false (env.run (build_methodgen_command env)).steps with
    | some e =>
      rw [hl] at h
      simp at h
    | none =>
      rw [hl] at h
      dsimp only at h
      split at h
      next he => simp at h
      next he =>
        simp only [Res.ok.injEq] at h
        obtain ⟨-, h2⟩ := h
        subst h2
        simpa [St.evs] using he

/-- Witness for C7: with no `MethodGen.exe` on disk, `run_methodgen`
reports it missing and launches nothing. -/
theorem claimC7_witness :
    run_methodgen (baseEnv "linux") st0 =
      .ok (some false)
        ((st0.evs (.info " Running MethodGen...")).evs (.err "MethodGen.exe not found.")) :=
  claimC7.1 (baseEnv "linux") st0 (by decide)

/-- Claim C8: requesting macos or ios on a non-darwin host, or windows
on a non-Windows host, fails the precondition check: the setup reports a
user-visible error, returns failure, and performs no other state change
— in particular zero subprocess invocations. -/
theorem claimC8 (env : Env) (st : St) :
    ((env.host == "darwin") = false →
        setup_macos env st =
          .ok false (st.evs (.err "Generating project file for macOS requires that you run this script on macOS"))
      ∧ setup_ios env st =
          .ok false (st.evs (.err "Generating project file for iOS requires that you run this script on macOS")))
  ∧ (isWinHost env.host = false →
        setup_windows env st =
          .ok false (st.evs (.err "Generating project file for Windows requires that you run this script on Windows"))) := by
  constructor
  · intro h
    constructor
    · simp [setup_macos, h]
    · simp [setup_ios, h]
  · intro h
    simp [setup_windows, h]

/-- Witness for C8: on a "linux" host all three host-gated setups fail
their precondition with only the error report emitted. -/
theorem claimC8_witness :
    (setup_macos (baseEnv "linux") st0 =
        .ok false (st0.evs (.err "Generating project file for macOS requires that you run this script on macOS"))
      ∧ setup_ios (baseEnv "linux") st0 =
        .ok false (st0.evs (.err "Generating project file for iOS requires that you run this script on macOS")))
  ∧ setup_windows (baseEnv "linux") st0 =
      .ok false (st0.evs (.err "Generating project file for Windows requires that you run this script on Windows")) :=
  ⟨(claimC8 (baseEnv "linux") st0).1 (by decide), (claimC8 (baseEnv "linux") st0).2 (by decide)⟩

/-- Removing a path from the files list leaves it nonexistent, provided
it is not also a directory. -/
theorem existsPath_removeFile (fs : FS) (p : Path) (hd : fs.isDir p = false) :
    (fs.removeFile p).existsPath p = false := by
  simp [FS.removeFile, FS.existsPath, FS.isDir] at *
  exact hd

/-- Claim C9: when the MethodGen executable exists (and the generated
source path is not a directory), `run_methodgen` deletes any previously
generated `AutoNativeMethods.cs` before launching the generator: the
filesystem handed to the code-generation subprocess never contains the
stale file, and with a generator that creates nothing (`effect = id`)
and exits cleanly, the post-run existence check fails even if a stale
file was present at entry. -/
theorem claimC9 (env : Env) (st : St)
    (hexe : st.fs.existsPath methodgen_exe = true)
    (hdir : st.fs.isDir autonative_cs = false)
    (heff : (env.run (run_methodgen_command env)).effect = id)
    (hsteps : loopFatal false (env.run (run_methodgen_command env)).steps = none) :
    (if st.fs.existsPath autonative_cs then st.fs.removeFile autonative_cs
     else st.fs).existsPath autonative_cs = false
  ∧ run_methodgen env st =
      .ok (some false)
        { st with
          fs := if st.fs.existsPath autonative_cs then st.fs.removeFile autonative_cs else st.fs,
          trace := st.trace ++ [.info " Running MethodGen...",
            .proc (run_methodgen_command env),
            .err ("failed to generate " ++ autonative_cs.render ++ " for macOS build")] } := by
  by_cases hex : st.fs.existsPath autonative_cs = true
  · have hfile : st.fs.isFile autonative_cs = true := by
      have hex2 := hex
      have hdir2 := hdir
      simp [FS.existsPath] at hex2
      simp [FS.isDir] at hdir2
      simp [FS.isFile]
      tauto
    have hrm : (st.fs.removeFile autonative_cs).existsPath autonative_cs = false :=
      existsPath_removeFile st.fs autonative_cs hdir
    constructor
    · simpa [hex] using hrm
    · simp [run_methodgen, osRemove, Res.and, run_command, St.evs, hexe, hex, hfile,
            heff, hsteps, hrm]
  · have hex2 : st.fs.existsPath autonative_cs = false := by simpa using hex
    constructor
    · simp [hex2]
    · simp [run_methodgen, Res.and, run_command, St.evs, hexe, hex2, heff, hsteps]

/-- Input for the C9 witness: MethodGen.exe and a stale generated file
both on disk. -/
def stW9 : St :=
  { fs := { files := [methodgen_exe, autonative_cs], dirs := [] },
    cwd := script_folder, trace := [] }

/-- Witness for C9: with a stale `AutoNativeMethods.cs` on disk and a
generator that writes nothing, the stale file is deleted before the run
and the post-run check fails. -/
theorem claimC9_witness :
    (if stW9.fs.existsPath autonative_cs then stW9.fs.removeFile autonative_cs
     else stW9.fs).existsPath autonative_cs = false
  ∧ run_methodgen (baseEnv "linux") stW9 =
      .ok (some false)
        { stW9 with
          fs := if stW9.fs.existsPath autonative_cs then stW9.fs.removeFile autonative_cs else stW9.fs,
          trace := stW9.trace ++ [.info " Running MethodGen...",
            .proc (run_methodgen_command (baseEnv "linux")),
            .err ("failed to generate " ++ autonative_cs.render ++ " for macOS build")] } :=
  claimC9 (baseEnv "linux") stW9 (by decide) (by decide) rfl rfl

/-- Claim C10: `check_or_create_path` is total and never raises — it
returns the target unchanged when the target exists or its creation
succeeds, and returns the empty string when the creation fails for any
reason; joining a subsequent artifact name against the empty string
resolves it relative to the current working directory, and the calling
platform setup (here `setup_js` with the build root missing) continues
with that cwd-relative artifact path. -/
theorem claimC10 :
    (∀ (target : Path) (st : St), st.fs.existsPath target = true →
        check_or_create_path target st = .ok target st)
  ∧ (∀ (target : Path) (st : St) (fs2 : FS), st.fs.existsPath target = false →
        st.fs.mkdir target = some fs2 →
        check_or_create_path target st = .ok target { st with fs := fs2 })
  ∧ (∀ (target : Path) (st : St), st.fs.existsPath target = false →
        st.fs.mkdir target = none →
        check_or_create_path target st = .ok emptyPath st)
  ∧ (∀ (target : Path) (st : St), ∃ (p : Path) (st2 : St),
        check_or_create_path target st = .ok p st2 ∧ (p = target ∨ p = emptyPath))
  ∧ (∀ cwd : Path, js_item emptyPath cwd = ⟨true, cwd.comps ++ ["Makefile"]⟩)
  ∧ setup_js (baseEnv "linux") stC10 =
      .ok false (stC10.evs (.warn "A configuration already appears in /repo/script/Makefile. Use --overwrite to replace.")) := by
  refine ⟨fun t st h => ?_, fun t st fs2 h hm => ?_, fun t st h hm => ?_, fun t st => ?_,
          fun cwd => rfl, ?_⟩
  · simp [check_or_create_path, h]
  · simp [check_or_create_path, h, hm]
  · simp [check_or_create_path, h, hm]
  · by_cases h : st.fs.existsPath t = true
    · exact ⟨t, st, by simp [check_or_create_path, h], Or.inl rfl⟩
    · have h2 : st.fs.existsPath t = false := by simpa using h
      cases hm : st.fs.mkdir t with
      | some fs2 =>
        exact ⟨t, { st with fs := fs2 }, by simp [check_or_create_path, h2, hm], Or.inl rfl⟩
      | none =>
        exact ⟨emptyPath, st, by simp [check_or_create_path, h2, hm], Or.inr rfl⟩
  · decide

/-- Witness for C10: with the build root missing, creating `build/js`
fails and `check_or_create_path` returns the empty string without
raising. -/
theorem claimC10_witness :
    check_or_create_path js_build_path stC10 = .ok emptyPath stC10 :=
  claimC10.2.2.1 js_build_path stC10 (by decide) (by decide)

end SetupPy
